import Mathlib

/-
Verification of the SQLBigQueryDataSource facade (src/sql_bigquery.py).

Shallow embedding: the facade holds a (project_id, dataset_id) pair and a
metadata collection of table definitions (the SQLAlchemy MetaData object).
The remote warehouse is abstracted by oracles: an attempt oracle giving the
outcome of each create_all / DROP execution (indexed by attempt number), an
introspection oracle for table reflection, and a query backend.  Sleeps are
recorded as rational durations (the float literal 0.1 is modelled as the
rational 1/10); the jitter drawn by random.uniform(0, 1) is an input stream
constrained to [0, 1).  Python exceptions are modelled by explicit outcome
constructors carrying the exception message string.
-/

/-- Does the character list start with the given pattern?  Helper for
substring containment. -/
def matchAt : List Char → List Char → Bool
  | [], _ => true
  | _ :: _, [] => false
  | p :: ps, c :: cs => p == c && matchAt ps cs

/-- Does the pattern occur contiguously anywhere in the list? -/
def occursIn (pat : List Char) : List Char → Bool
  | [] => matchAt pat []
  | c :: cs => matchAt pat (c :: cs) || occursIn pat cs

/-- Python's `pat in hay` substring test on strings. -/
def strContains (hay pat : String) : Bool :=
  occursIn pat.toList hay.toList

/-- The substring create_table looks for in an error message
(`"Job exceeded rate limits" in str(e)`). -/
def rateLimitText : String := "Job exceeded rate limits"

/-- The substring delete_table looks for in an error message
(`"exceeded quota for table update operations" in str(e)`). -/
def quotaText : String := "exceeded quota for table update operations"

/-- Outcome of one underlying attempt (one `self.metadata.create_all()` or
one execution of the DROP statement): success, or an exception whose
`str(e)` is the given message. -/
inductive AttemptResult where
  | success
  | failure (msg : String)
deriving DecidableEq

/-- Is the attempt outcome an error that create_table treats as transient? -/
def isTransientCreate : AttemptResult → Bool
  | .success => false
  | .failure msg => strContains msg rateLimitText

/-- Is the attempt outcome an error that delete_table treats as transient? -/
def isTransientDelete : AttemptResult → Bool
  | .success => false
  | .failure msg => strContains msg quotaText

/-- A column of a table definition (sqlalchemy Column: name and type;
the type is kept abstract as its textual name). -/
structure ColumnDef where
  name : String
  ctype : String
deriving DecidableEq

/-- A table definition registered in the MetaData collection
(sqlalchemy Table: fully-qualified name plus ordered columns). -/
structure TableDef where
  name : String
  columns : List ColumnDef
deriving DecidableEq

/-- State of a SQLBigQueryDataSource instance: project_id, dataset_id and
the MetaData collection of registered table definitions. -/
structure Facade where
  project_id : String
  dataset_id : String
  metadata : List TableDef
deriving DecidableEq

/-- `__init__(project_id, dataset_id)`: binds the identifiers and a fresh
(empty) MetaData collection to the new engine. -/
def initFacade (project_id dataset_id : String) : Facade :=
  { project_id := project_id, dataset_id := dataset_id, metadata := [] }

/-- The in-memory tabular result (pandas DataFrame built from
`result.fetchall()` and `result.keys()`): ordered column names and rows. -/
structure Frame where
  columns : List String
  rows : List (List String)
deriving DecidableEq

/-- Observable trace of one execute_query call: the query texts sent to the
backend, whether the scoped connection was released, and the result
(`Except.error` is a propagated exception). -/
structure ExecTrace where
  executed : List String
  released : Bool
  result : Except String Frame

/-- `execute_query(query)`: acquires a scoped connection
(`with self.engine.connect() as connection`), executes the literal query
text once, materialises rows and column names into a frame, and releases
the connection on block exit — on the normal and on the exceptional path,
by the semantics of `with`.  The backend oracle maps the executed text to
either (column names, rows) or an exception message. -/
def execute_query (_st : Facade) (query : String)
    (backend : String → Except String (List String × List (List String))) :
    ExecTrace :=
  match backend query with
  | .ok r => { executed := [query], released := true,
               result := .ok { columns := r.1, rows := r.2 } }
  | .error e => { executed := [query], released := true, result := .error e }

/-- `get_table(table_id)`: attempts to reflect the table named
`f"{self.dataset_id}.{table_id}"` against the metadata
(`Table(name, self.metadata, autoload=True)`).  On success the reflected
table is registered in the metadata and returned; on any exception the
handler logs at debug level and the initial `table = None` is returned
(sqlalchemy removes the half-registered table from the metadata when
reflection fails, so the metadata is unchanged on failure). -/
def get_table (st : Facade) (table_id : String)
    (introspect : String → Except String (List ColumnDef)) :
    Facade × Option TableDef :=
  match introspect (st.dataset_id ++ "." ++ table_id) with
  | .ok cols =>
      ({ st with metadata := st.metadata ++
          [{ name := st.dataset_id ++ "." ++ table_id, columns := cols }] },
        some { name := st.dataset_id ++ "." ++ table_id, columns := cols })
  | .error _ => (st, none)

/-- How a create_table call ends: `return True`, `return False` after the
loop, or an uncaught `raise e`. -/
inductive CreateOutcome where
  | returnedTrue
  | returnedFalse
  | raised (msg : String)
deriving DecidableEq

/-- Observable trace of the create_table retry loop: final outcome, number
of `create_all` attempts made, the sleep durations in order, and for each
attempt the table-definition collection submitted to `create_all`. -/
structure CreateTrace where
  outcome : CreateOutcome
  numAttempts : Nat
  sleeps : List ℚ
  submitted : List (List TableDef)
deriving DecidableEq

/-- `new_table.append_column(Column(column_name, column_type))`.  The schema
is a Python dict, so column names are unique and no replacement occurs. -/
def append_column (t : TableDef) (c : ColumnDef) : TableDef :=
  { t with columns := t.columns ++ [c] }

/-- The table definition built at the top of create_table:
`Table(table_name, self.metadata)` followed by one append_column per
schema entry, in the dict's iteration order. -/
def build_new_table (table_name : String) (schema : List (String × String)) :
    TableDef :=
  schema.foldl (fun t c => append_column t { name := c.1, ctype := c.2 })
    { name := table_name, columns := [] }

/-- The `while try_count < max_retries` loop of create_table, with
`fuel = max_retries - try_count` and `k = try_count`.  Each iteration calls
`self.metadata.create_all()` (submitting the whole metadata collection,
abstracted by the attempt oracle); on success it returns `True`; on an
exception whose message contains the rate-limit substring it sleeps
`2 ** try_count + random.uniform(0, 1)` seconds and increments try_count;
on any other exception it re-raises.  Falling out of the loop returns
`False`. -/
def create_loop (md : List TableDef) (attempt : Nat → AttemptResult)
    (jitter : Nat → ℚ) : Nat → Nat → CreateTrace
  | _, 0 => { outcome := .returnedFalse, numAttempts := 0, sleeps := [],
              submitted := [] }
  | k, f + 1 =>
    match attempt k with
    | .success => { outcome := .returnedTrue, numAttempts := 1, sleeps := [],
                    submitted := [md] }
    | .failure msg =>
      if strContains msg rateLimitText then
        let r := create_loop md attempt jitter (k + 1) f
        { outcome := r.outcome, numAttempts := r.numAttempts + 1,
          sleeps := ((2 : ℚ) ^ k + jitter k) :: r.sleeps,
          submitted := md :: r.submitted }
      else
        { outcome := .raised msg, numAttempts := 1, sleeps := [],
          submitted := [md] }

/-- `create_table(table_id, schema, time_partitioning_field=None)`: builds
the new table definition under the name
`f"{self.dataset_id}.{table_id}"`, registering it in the shared metadata,
then runs the retry loop (max_retries = 5, try_count starting at 0).  The
time_partitioning_field parameter is never used (its only mention in the
source is commented out). -/
def create_table (st : Facade) (table_id : String)
    (schema : List (String × String)) (time_partitioning_field : Option String)
    (attempt : Nat → AttemptResult) (jitter : Nat → ℚ) :
    Facade × CreateTrace :=
  let table_name := st.dataset_id ++ "." ++ table_id
  let new_table := build_new_table table_name schema
  let st1 : Facade := { st with metadata := st.metadata ++ [new_table] }
  (st1, create_loop st1.metadata attempt jitter 0 5)

/-- How a delete_table call ends: `return` after a successful drop, falling
out of the loop (a debug log line, then an implicit `return None`), or an
uncaught `raise e`. -/
inductive DeleteOutcome where
  | returnedNormally
  | exhaustedSilently
  | raised (msg : String)
deriving DecidableEq

/-- Observable trace of the delete_table retry loop. -/
structure DeleteTrace where
  outcome : DeleteOutcome
  numAttempts : Nat
  sleeps : List ℚ
deriving DecidableEq

/-- The `while retry_count < max_retries` loop of delete_table, with
`fuel = max_retries - retry_count` and `k = retry_count`.  Each iteration
executes the DROP statement on a scoped connection; on success it prints
and returns; on an exception whose message contains the quota substring it
sleeps `(2 ** retry_count) * 0.1` seconds and increments retry_count; on
any other exception it re-raises.  Falling out of the loop logs at debug
level and returns nothing. -/
def delete_loop (attempt : Nat → AttemptResult) : Nat → Nat → DeleteTrace
  | _, 0 => { outcome := .exhaustedSilently, numAttempts := 0, sleeps := [] }
  | k, f + 1 =>
    match attempt k with
    | .success => { outcome := .returnedNormally, numAttempts := 1,
                    sleeps := [] }
    | .failure msg =>
      if strContains msg quotaText then
        let r := delete_loop attempt (k + 1) f
        { outcome := r.outcome, numAttempts := r.numAttempts + 1,
          sleeps := ((2 : ℚ) ^ k * (1 / 10)) :: r.sleeps }
      else
        { outcome := .raised msg, numAttempts := 1, sleeps := [] }

/-- `delete_table(table_id)`: forms the statement
`DROP TABLE IF EXISTS {dataset_id}.{table_id}` and runs the retry loop
(max_retries = 5, retry_count starting at 0).  The facade state is not
modified.  Returns the statement text and the loop trace. -/
def delete_table (st : Facade) (table_id : String)
    (attempt : Nat → AttemptResult) : String × DeleteTrace :=
  let table_name := st.dataset_id ++ "." ++ table_id
  ("DROP TABLE IF EXISTS " ++ table_name, delete_loop attempt 0 5)

/-- States of the retry state machine described for both retry loops:
Attempting(n), Succeeded, FatalFailure, ExhaustedRetries. -/
inductive RState where
  | attempting (n : Nat)
  | succeeded
  | fatalFailure
  | exhaustedRetries
deriving DecidableEq

/-- The control states the retry loop of the source passes through, at the
head of each `while` iteration (counter k, fuel = max_retries - k): at each
loop-condition check the loop is in Attempting(k); when the check fails
(fuel 0, k = 5) the loop falls through to its exhausted terminal; otherwise
one attempt is made and the loop moves to the terminal indicated by the
outcome, or to Attempting(k+1) after a matching transient failure.  Both
source loops have this exact shape and differ only in the substring
matched, so the matched text is a parameter. -/
def loop_states (matchText : String) (attempt : Nat → AttemptResult) :
    Nat → Nat → List RState
  | k, 0 => [.attempting k, .exhaustedRetries]
  | k, f + 1 =>
    .attempting k ::
    match attempt k with
    | .success => [.succeeded]
    | .failure msg =>
      if strContains msg matchText then loop_states matchText attempt (k + 1) f
      else [.fatalFailure]

/-- Control states of create_table's retry loop (full run: try_count from 0,
max_retries = 5). -/
def create_states (attempt : Nat → AttemptResult) : List RState :=
  loop_states rateLimitText attempt 0 5

/-- Control states of delete_table's retry loop (full run: retry_count from
0, max_retries = 5). -/
def delete_states (attempt : Nat → AttemptResult) : List RState :=
  loop_states quotaText attempt 0 5

/-- The state machine exactly as the spec words it: Attempting(n) goes to
Succeeded on success; to FatalFailure on a non-matching error; to
Attempting(n+1) on a matching transient error while n < 5; and from
Attempting(5) a further transient error leads to ExhaustedRetries.
Terminal states are fixed.  (Second definition, written from the spec's
words, for comparison against the loop from the source.) -/
def specStep (matchText : String) (attempt : Nat → AttemptResult) :
    RState → RState
  | .attempting n =>
    match attempt n with
    | .success => .succeeded
    | .failure msg =>
      if strContains msg matchText then
        if n < 5 then .attempting (n + 1) else .exhaustedRetries
      else .fatalFailure
  | s => s

/-- The amended state machine: identical to the spec's except that
Attempting(5) transitions to ExhaustedRetries unconditionally, consulting
no further attempt.  Terminal states are fixed. -/
def amendedStep (matchText : String) (attempt : Nat → AttemptResult) :
    RState → RState
  | .attempting n =>
    if n < 5 then
      match attempt n with
      | .success => .succeeded
      | .failure msg =>
        if strContains msg matchText then .attempting (n + 1)
        else .fatalFailure
    else .exhaustedRetries
  | s => s

/-- Iterate a step function a fixed number of times. -/
def runSteps (step : RState → RState) : Nat → RState → RState
  | 0, s => s
  | f + 1, s => runSteps step f (step s)

/-- Final state of the spec's machine started at Attempting(0); seven steps
suffice to reach a terminal state, which is then fixed. -/
def specFinal (matchText : String) (attempt : Nat → AttemptResult) : RState :=
  runSteps (specStep matchText attempt) 7 (.attempting 0)

/-- The sequence of states a step function generates from a start state:
Attempting states continue, terminal states stop (fuel-bounded). -/
def machineTrace (step : RState → RState) : Nat → RState → List RState
  | 0, s => [s]
  | f + 1, s =>
    match s with
    | .attempting n => .attempting n :: machineTrace step f (step (.attempting n))
    | t => [t]

/-- The machine state a create_table outcome denotes: `True` is Succeeded,
`False` is ExhaustedRetries, a raise is FatalFailure. -/
def stateOfCreateOutcome : CreateOutcome → RState
  | .returnedTrue => .succeeded
  | .returnedFalse => .exhaustedRetries
  | .raised _ => .fatalFailure

/-- The machine state a delete_table outcome denotes: a normal return after
a successful drop is Succeeded, the silent give-up is ExhaustedRetries, a
raise is FatalFailure. -/
def stateOfDeleteOutcome : DeleteOutcome → RState
  | .returnedNormally => .succeeded
  | .exhaustedSilently => .exhaustedRetries
  | .raised _ => .fatalFailure

theorem build_new_table_go (schema : List (String × String)) (t : TableDef) :
    schema.foldl (fun t c => append_column t { name := c.1, ctype := c.2 }) t =
      { name := t.name,
        columns := t.columns ++
          schema.map fun c => { name := c.1, ctype := c.2 } } := by
  induction schema generalizing t with
  | nil => simp
  | cons c cs ih =>
    rw [List.foldl_cons, ih]
    simp [append_column]

theorem build_new_table_eq (table_name : String)
    (schema : List (String × String)) :
    build_new_table table_name schema =
      { name := table_name,
        columns := schema.map fun c => { name := c.1, ctype := c.2 } } := by
  rw [build_new_table, build_new_table_go]
  simp

theorem create_loop_transient (md : List TableDef)
    (attempt : Nat → AttemptResult) (jitter : Nat → ℚ) :
    ∀ f k, (∀ n, k ≤ n → n < k + f → isTransientCreate (attempt n) = true) →
    create_loop md attempt jitter k f =
      { outcome := .returnedFalse, numAttempts := f,
        sleeps := (List.range f).map fun i => (2 : ℚ) ^ (k + i) + jitter (k + i),
        submitted := List.replicate f md } := by
  intro f
  induction f with
  | zero => intro k _; simp [create_loop]
  | succ f ih =>
    intro k h
    have hk := h k le_rfl (by omega)
    cases hA : attempt k with
    | success => rw [hA] at hk; simp [isTransientCreate] at hk
    | failure msg =>
      rw [hA] at hk
      rw [isTransientCreate] at hk
      rw [create_loop, hA]
      simp only [hk, if_true]
      rw [ih (k + 1) (fun n h1 h2 => h n (by omega) (by omega))]
      simp only [CreateTrace.mk.injEq]
      refine ⟨by trivial, by trivial, ?_, ?_⟩
      · rw [List.range_succ_eq_map, List.map_cons, List.map_map]
        simp only [Nat.add_zero]
        refine congrArg₂ _ rfl (List.map_congr_left fun i _ => ?_)
        simp only [Function.comp_apply]
        have hidx : k + 1 + i = k + (i + 1) := by omega
        rw [hidx, Nat.succ_eq_add_one]
      · rw [List.replicate_succ]

theorem delete_loop_transient (attempt : Nat → AttemptResult) :
    ∀ f k, (∀ n, k ≤ n → n < k + f → isTransientDelete (attempt n) = true) →
    delete_loop attempt k f =
      { outcome := .exhaustedSilently, numAttempts := f,
        sleeps := (List.range f).map fun i => (2 : ℚ) ^ (k + i) * (1 / 10) } := by
  intro f
  induction f with
  | zero => intro k _; simp [delete_loop]
  | succ f ih =>
    intro k h
    have hk := h k le_rfl (by omega)
    cases hA : attempt k with
    | success => rw [hA] at hk; simp [isTransientDelete] at hk
    | failure msg =>
      rw [hA] at hk
      rw [isTransientDelete] at hk
      rw [delete_loop, hA]
      simp only [hk, if_true]
      rw [ih (k + 1) (fun n h1 h2 => h n (by omega) (by omega))]
      simp only [DeleteTrace.mk.injEq]
      refine ⟨by trivial, by trivial, ?_⟩
      rw [List.range_succ_eq_map, List.map_cons, List.map_map]
      simp only [Nat.add_zero]
      refine congrArg₂ _ rfl (List.map_congr_left fun i _ => ?_)
      simp only [Function.comp_apply]
      have hidx : k + 1 + i = k + (i + 1) := by omega
      rw [hidx, Nat.succ_eq_add_one]

theorem create_loop_fatal (md : List TableDef) (attempt : Nat → AttemptResult)
    (jitter : Nat → ℚ) (k f : Nat) (msg : String)
    (h1 : attempt k = .failure msg)
    (h2 : strContains msg rateLimitText = false) :
    create_loop md attempt jitter k (f + 1) =
      { outcome := .raised msg, numAttempts := 1, sleeps := [],
        submitted := [md] } := by
  rw [create_loop, h1]
  simp [h2]

theorem delete_loop_fatal (attempt : Nat → AttemptResult) (k f : Nat)
    (msg : String) (h1 : attempt k = .failure msg)
    (h2 : strContains msg quotaText = false) :
    delete_loop attempt k (f + 1) =
      { outcome := .raised msg, numAttempts := 1, sleeps := [] } := by
  rw [delete_loop, h1]
  simp [h2]

theorem create_loop_submitted (md : List TableDef)
    (attempt : Nat → AttemptResult) (jitter : Nat → ℚ) :
    ∀ f k, ∀ sub ∈ (create_loop md attempt jitter k f).submitted, sub = md := by
  intro f
  induction f with
  | zero => intro k sub hsub; simp [create_loop] at hsub
  | succ f ih =>
    intro k sub hsub
    rw [create_loop] at hsub
    cases hA : attempt k with
    | success => rw [hA] at hsub; simp at hsub; exact hsub
    | failure msg =>
      rw [hA] at hsub
      by_cases hm : strContains msg rateLimitText = true
      · simp only [hm, if_true] at hsub
        rcases List.mem_cons.mp hsub with h | h
        · exact h
        · exact ih (k + 1) sub h
      · simp only [Bool.not_eq_true] at hm
        simp [hm] at hsub
        exact hsub

/-- Claim C1: if every underlying creation attempt fails with an error whose
message contains the rate-limit substring, create_table makes exactly 5
attempts, sleeps after attempt n (n = 0..4) for a duration in
[2 ^ n, 2 ^ n + 1) seconds, and then returns False without raising. -/
theorem create_rate_limited_five_attempts_then_false
    (st : Facade) (table_id : String) (schema : List (String × String))
    (tpf : Option String) (attempt : Nat → AttemptResult) (jitter : Nat → ℚ)
    (hj : ∀ n, 0 ≤ jitter n ∧ jitter n < 1)
    (hfail : ∀ n, n < 5 → isTransientCreate (attempt n) = true) :
    ((create_table st table_id schema tpf attempt jitter).2.numAttempts = 5 ∧
      (create_table st table_id schema tpf attempt jitter).2.outcome =
        CreateOutcome.returnedFalse) ∧
    (create_table st table_id schema tpf attempt jitter).2.sleeps.length = 5 ∧
    ∀ n, n < 5 →
      (2 : ℚ) ^ n ≤
        (create_table st table_id schema tpf attempt jitter).2.sleeps.getD n 0 ∧
      (create_table st table_id schema tpf attempt jitter).2.sleeps.getD n 0 <
        (2 : ℚ) ^ n + 1 := by
  have hfail5 : ∀ n, 0 ≤ n → n < 0 + 5 → isTransientCreate (attempt n) = true :=
    fun n _ h2 => hfail n (by omega)
  have hloop := create_loop_transient
    (st.metadata ++ [build_new_table (st.dataset_id ++ "." ++ table_id) schema])
    attempt jitter 5 0 hfail5
  have hs : (List.range 5).map (fun i => (2 : ℚ) ^ (0 + i) + jitter (0 + i)) =
      [2 ^ 0 + jitter 0, 2 ^ 1 + jitter 1, 2 ^ 2 + jitter 2,
        2 ^ 3 + jitter 3, 2 ^ 4 + jitter 4] := by
    norm_num [List.range_succ]
  simp only [create_table]
  rw [hloop, hs]
  refine ⟨⟨rfl, rfl⟩, by simp, ?_⟩
  intro n hn
  interval_cases n <;> refine ⟨?_, ?_⟩ <;> simp [List.getD] <;>
    linarith [(hj 0).1, (hj 0).2, (hj 1).1, (hj 1).2, (hj 2).1, (hj 2).2,
      (hj 3).1, (hj 3).2, (hj 4).1, (hj 4).2]

/-- Witness for C1 at a concrete fault and jitter stream. -/
theorem create_rate_limited_five_attempts_then_false_check :
    ((create_table (initFacade "p" "d") "t" [("a", "Integer")] none
        (fun _ => AttemptResult.failure "Job exceeded rate limits")
        fun _ => (1 : ℚ) / 2).2.numAttempts = 5 ∧
      (create_table (initFacade "p" "d") "t" [("a", "Integer")] none
        (fun _ => AttemptResult.failure "Job exceeded rate limits")
        fun _ => (1 : ℚ) / 2).2.outcome = CreateOutcome.returnedFalse) ∧
    (2 : ℚ) ^ 3 ≤
      (create_table (initFacade "p" "d") "t" [("a", "Integer")] none
        (fun _ => AttemptResult.failure "Job exceeded rate limits")
        fun _ => (1 : ℚ) / 2).2.sleeps.getD 3 0 ∧
    (create_table (initFacade "p" "d") "t" [("a", "Integer")] none
        (fun _ => AttemptResult.failure "Job exceeded rate limits")
        fun _ => (1 : ℚ) / 2).2.sleeps.getD 3 0 < (2 : ℚ) ^ 3 + 1 := by
  have h := create_rate_limited_five_attempts_then_false
    (initFacade "p" "d") "t" [("a", "Integer")] none
    (fun _ => AttemptResult.failure "Job exceeded rate limits")
    (fun _ => (1 : ℚ) / 2)
    (fun n => by norm_num)
    (fun n hn =>
      show isTransientCreate (AttemptResult.failure "Job exceeded rate limits") =
        true by decide)
  exact ⟨h.1, (h.2.2 3 (by norm_num)).1, (h.2.2 3 (by norm_num)).2⟩

/-- Claim C2: if every underlying drop attempt fails with an error whose
message contains the quota-exceeded substring, delete_table makes exactly 5
attempts, sleeps after attempt n (n = 0..4) for exactly 0.1 * 2 ^ n seconds
with no jitter, and then returns normally without raising and without any
failure indicator. -/
theorem delete_quota_limited_five_attempts_then_silent
    (st : Facade) (table_id : String) (attempt : Nat → AttemptResult)
    (hfail : ∀ n, n < 5 → isTransientDelete (attempt n) = true) :
    ((delete_table st table_id attempt).2.numAttempts = 5 ∧
      (delete_table st table_id attempt).2.outcome =
        DeleteOutcome.exhaustedSilently) ∧
    (delete_table st table_id attempt).2.sleeps.length = 5 ∧
    ∀ n, n < 5 →
      (delete_table st table_id attempt).2.sleeps.getD n 0 =
        (1 / 10 : ℚ) * 2 ^ n := by
  have hfail5 : ∀ n, 0 ≤ n → n < 0 + 5 → isTransientDelete (attempt n) = true :=
    fun n _ h2 => hfail n (by omega)
  have hloop := delete_loop_transient attempt 5 0 hfail5
  have hs : (List.range 5).map (fun i => (2 : ℚ) ^ (0 + i) * (1 / 10)) =
      [2 ^ 0 * (1 / 10), 2 ^ 1 * (1 / 10), 2 ^ 2 * (1 / 10),
        2 ^ 3 * (1 / 10), 2 ^ 4 * (1 / 10)] := by
    norm_num [List.range_succ]
  simp only [delete_table]
  rw [hloop, hs]
  refine ⟨⟨rfl, rfl⟩, by simp, ?_⟩
  intro n hn
  interval_cases n <;> simp [List.getD] <;> norm_num

/-- Witness for C2 at a concrete fault. -/
theorem delete_quota_limited_five_attempts_then_silent_check :
    ((delete_table (initFacade "p" "d") "t"
        (fun _ => AttemptResult.failure
          "rateLimitExceeded: exceeded quota for table update operations")).2.numAttempts = 5 ∧
      (delete_table (initFacade "p" "d") "t"
        (fun _ => AttemptResult.failure
          "rateLimitExceeded: exceeded quota for table update operations")).2.outcome =
        DeleteOutcome.exhaustedSilently) ∧
    (delete_table (initFacade "p" "d") "t"
        (fun _ => AttemptResult.failure
          "rateLimitExceeded: exceeded quota for table update operations")).2.sleeps.getD 4 0 =
      (1 / 10 : ℚ) * 2 ^ 4 := by
  have h := delete_quota_limited_five_attempts_then_silent
    (initFacade "p" "d") "t"
    (fun _ => AttemptResult.failure
      "rateLimitExceeded: exceeded quota for table update operations")
    (fun n hn =>
      show isTransientDelete (AttemptResult.failure
        "rateLimitExceeded: exceeded quota for table update operations") =
        true by decide)
  exact ⟨h.1, h.2.2 4 (by norm_num)⟩

/-- Claim C3: if the first underlying attempt fails with an error whose
message does not contain the operation's transient substring, both
create_table and delete_table re-raise that very error immediately: one
attempt, zero sleeps, the error unchanged. -/
theorem non_matching_error_reraised_immediately
    (st : Facade) (table_id : String) (schema : List (String × String))
    (tpf : Option String) (jitter : Nat → ℚ)
    (attemptC attemptD : Nat → AttemptResult) (msgC msgD : String)
    (hC : attemptC 0 = .failure msgC)
    (hCm : strContains msgC rateLimitText = false)
    (hD : attemptD 0 = .failure msgD)
    (hDm : strContains msgD quotaText = false) :
    ((create_table st table_id schema tpf attemptC jitter).2.outcome =
        CreateOutcome.raised msgC ∧
      (create_table st table_id schema tpf attemptC jitter).2.numAttempts = 1 ∧
      (create_table st table_id schema tpf attemptC jitter).2.sleeps = []) ∧
    ((delete_table st table_id attemptD).2.outcome =
        DeleteOutcome.raised msgD ∧
      (delete_table st table_id attemptD).2.numAttempts = 1 ∧
      (delete_table st table_id attemptD).2.sleeps = []) := by
  have h1 := create_loop_fatal
    (st.metadata ++ [build_new_table (st.dataset_id ++ "." ++ table_id) schema])
    attemptC jitter 0 4 msgC hC hCm
  have h2 := delete_loop_fatal attemptD 0 4 msgD hD hDm
  simp only [create_table, delete_table]
  rw [h1, h2]
  exact ⟨⟨rfl, rfl, rfl⟩, rfl, rfl, rfl⟩

/-- Witness for C3 at a concrete non-matching fault for each operation. -/
theorem non_matching_error_reraised_immediately_check :
    ((create_table (initFacade "p" "d") "t" [("a", "Integer")] none
        (fun _ => AttemptResult.failure "403 Access Denied")
        fun _ => 0).2.outcome = CreateOutcome.raised "403 Access Denied" ∧
      (create_table (initFacade "p" "d") "t" [("a", "Integer")] none
        (fun _ => AttemptResult.failure "403 Access Denied")
        fun _ => 0).2.numAttempts = 1 ∧
      (create_table (initFacade "p" "d") "t" [("a", "Integer")] none
        (fun _ => AttemptResult.failure "403 Access Denied")
        fun _ => 0).2.sleeps = []) ∧
    ((delete_table (initFacade "p" "d") "t"
        (fun _ => AttemptResult.failure "403 Access Denied")).2.outcome =
        DeleteOutcome.raised "403 Access Denied" ∧
      (delete_table (initFacade "p" "d") "t"
        (fun _ => AttemptResult.failure "403 Access Denied")).2.numAttempts = 1 ∧
      (delete_table (initFacade "p" "d") "t"
        (fun _ => AttemptResult.failure "403 Access Denied")).2.sleeps = []) :=
  non_matching_error_reraised_immediately (initFacade "p" "d") "t"
    [("a", "Integer")] none (fun _ => 0)
    (fun _ => AttemptResult.failure "403 Access Denied")
    (fun _ => AttemptResult.failure "403 Access Denied")
    "403 Access Denied" "403 Access Denied"
    rfl (by decide) rfl (by decide)

theorem create_loop_numAttempts_pos (md : List TableDef)
    (attempt : Nat → AttemptResult) (jitter : Nat → ℚ) (k f : Nat) :
    1 ≤ (create_loop md attempt jitter k (f + 1)).numAttempts := by
  rw [create_loop]
  cases attempt k with
  | success => simp
  | failure msg =>
    by_cases hm : strContains msg rateLimitText = true
    · simp [hm]
    · simp only [Bool.not_eq_true] at hm
      simp [hm]

/-- Claim C4: get_table never raises; on success it returns the table
handle, on any introspection failure it returns None, and the returned
value on failure does not depend on the failure, so a missing table is
indistinguishable from any other introspection failure. -/
theorem get_table_never_raises_absent_on_failure
    (st : Facade) (table_id : String)
    (introspect : String → Except String (List ColumnDef)) :
    (∀ e, introspect (st.dataset_id ++ "." ++ table_id) = .error e →
      get_table st table_id introspect = (st, none)) ∧
    (∀ cols, introspect (st.dataset_id ++ "." ++ table_id) = .ok cols →
      get_table st table_id introspect =
        ({ st with metadata := st.metadata ++
            [{ name := st.dataset_id ++ "." ++ table_id, columns := cols }] },
          some { name := st.dataset_id ++ "." ++ table_id, columns := cols })) ∧
    ∀ i1 i2 : String → Except String (List ColumnDef), ∀ e1 e2,
      i1 (st.dataset_id ++ "." ++ table_id) = .error e1 →
      i2 (st.dataset_id ++ "." ++ table_id) = .error e2 →
      get_table st table_id i1 = get_table st table_id i2 := by
  refine ⟨?_, ?_, ?_⟩
  · intro e he; simp [get_table, he]
  · intro cols hc; simp [get_table, hc]
  · intro i1 i2 e1 e2 h1 h2; simp [get_table, h1, h2]

/-- Witness for C4: a missing-table error and a permission error yield the
same absent result. -/
theorem get_table_never_raises_absent_on_failure_check :
    get_table (initFacade "p" "d") "t"
        (fun _ => Except.error "NoSuchTableError") =
      (initFacade "p" "d", none) ∧
    get_table (initFacade "p" "d") "t"
        (fun _ => Except.error "NoSuchTableError") =
      get_table (initFacade "p" "d") "t"
        (fun _ => Except.error "403 Access Denied") := by
  have h := get_table_never_raises_absent_on_failure (initFacade "p" "d") "t"
    (fun _ => Except.error "NoSuchTableError")
  exact ⟨h.1 "NoSuchTableError" rfl,
    h.2.2 (fun _ => Except.error "NoSuchTableError")
      (fun _ => Except.error "403 Access Denied")
      "NoSuchTableError" "403 Access Denied" rfl rfl⟩

/-- Claim C5: execute_query sends the literal query text to the backend
exactly once; a failure is surfaced immediately (no retry); and the scoped
connection is released before the call returns, on success and on
failure. -/
theorem execute_query_one_attempt_and_release
    (st : Facade) (query : String)
    (backend : String → Except String (List String × List (List String))) :
    (execute_query st query backend).executed = [query] ∧
    (execute_query st query backend).released = true ∧
    (∀ e, backend query = .error e →
      (execute_query st query backend).result = .error e) ∧
    ∀ r, backend query = .ok r →
      (execute_query st query backend).result =
        .ok { columns := r.1, rows := r.2 } := by
  cases hb : backend query with
  | ok r =>
    refine ⟨by simp [execute_query, hb], by simp [execute_query, hb], ?_, ?_⟩
    · intro e he; cases he
    · intro r2 hr2; cases hr2; simp [execute_query, hb]
  | error e =>
    refine ⟨by simp [execute_query, hb], by simp [execute_query, hb], ?_, ?_⟩
    · intro e2 he2; cases he2; simp [execute_query, hb]
    · intro r2 hr2; cases hr2

/-- Witness for C5 at a failing backend. -/
theorem execute_query_one_attempt_and_release_check :
    (execute_query (initFacade "p" "d") "SELECT 1 AS x"
        (fun _ => Except.error "Bad request")).executed = ["SELECT 1 AS x"] ∧
    (execute_query (initFacade "p" "d") "SELECT 1 AS x"
        (fun _ => Except.error "Bad request")).released = true ∧
    (execute_query (initFacade "p" "d") "SELECT 1 AS x"
        (fun _ => Except.error "Bad request")).result =
      Except.error "Bad request" := by
  have h := execute_query_one_attempt_and_release (initFacade "p" "d")
    "SELECT 1 AS x" (fun _ => Except.error "Bad request")
  exact ⟨h.1, h.2.1, h.2.2.1 "Bad request" rfl⟩

/-- Claim C6: for a schema mapping with N unique column names, the table
definition submitted for creation is named dataset_id.table_id and has
exactly N columns, in the mapping's iteration order. -/
theorem create_table_submits_named_table_with_schema_columns
    (st : Facade) (table_id : String) (schema : List (String × String))
    (tpf : Option String) (attempt : Nat → AttemptResult) (jitter : Nat → ℚ)
    (huniq : (schema.map Prod.fst).Nodup) :
    (build_new_table (st.dataset_id ++ "." ++ table_id) schema).name =
      st.dataset_id ++ "." ++ table_id ∧
    (build_new_table (st.dataset_id ++ "." ++ table_id) schema).columns.length =
      schema.length ∧
    (build_new_table (st.dataset_id ++ "." ++ table_id) schema).columns =
      (schema.map fun c => { name := c.1, ctype := c.2 }) ∧
    ∀ sub ∈ (create_table st table_id schema tpf attempt jitter).2.submitted,
      build_new_table (st.dataset_id ++ "." ++ table_id) schema ∈ sub := by
  refine ⟨by rw [build_new_table_eq], by rw [build_new_table_eq]; simp,
    by rw [build_new_table_eq], ?_⟩
  intro sub hsub
  simp only [create_table] at hsub
  rw [create_loop_submitted _ attempt jitter 5 0 sub hsub]
  simp

/-- Witness for C6 at the spec's scenario: dataset d, table t, columns
a then b. -/
theorem create_table_submits_named_table_with_schema_columns_check :
    (build_new_table ((initFacade "p" "d").dataset_id ++ "." ++ "t")
        [("a", "Integer"), ("b", "String")]).name =
      (initFacade "p" "d").dataset_id ++ "." ++ "t" ∧
    (build_new_table ((initFacade "p" "d").dataset_id ++ "." ++ "t")
        [("a", "Integer"), ("b", "String")]).columns =
      [{ name := "a", ctype := "Integer" }, { name := "b", ctype := "String" }] ∧
    build_new_table ((initFacade "p" "d").dataset_id ++ "." ++ "t")
        [("a", "Integer"), ("b", "String")] ∈
      (initFacade "p" "d").metadata ++
        [build_new_table ((initFacade "p" "d").dataset_id ++ "." ++ "t")
          [("a", "Integer"), ("b", "String")]] := by
  have h := create_table_submits_named_table_with_schema_columns
    (initFacade "p" "d") "t" [("a", "Integer"), ("b", "String")] none
    (fun _ => AttemptResult.success) (fun _ => 0) (by decide)
  refine ⟨h.1, h.2.2.1, ?_⟩
  exact h.2.2.2 _ (by decide)

/-- Claim C8: create_table behaves identically for any two values of
time_partitioning_field: the constructed definition, the attempt and sleep
trace, the outcome and the resulting facade state are all equal (the
parameter is accepted but never applied). -/
theorem create_table_ignores_time_partitioning_field
    (st : Facade) (table_id : String) (schema : List (String × String))
    (attempt : Nat → AttemptResult) (jitter : Nat → ℚ)
    (tpf1 tpf2 : Option String) :
    create_table st table_id schema tpf1 attempt jitter =
      create_table st table_id schema tpf2 attempt jitter := rfl

/-- Claim C9: create_table registers the new table definition in the shared
metadata before the first creation attempt (every attempt submits a
collection containing it, and at least one attempt is made), and the
registration persists after the call whatever the outcome: the final
metadata is the initial metadata plus the new definition, so the facade
state is changed even on error. -/
theorem create_table_registers_before_attempt_no_rollback
    (st : Facade) (table_id : String) (schema : List (String × String))
    (tpf : Option String) (attempt : Nat → AttemptResult) (jitter : Nat → ℚ) :
    (create_table st table_id schema tpf attempt jitter).1.metadata =
      st.metadata ++
        [build_new_table (st.dataset_id ++ "." ++ table_id) schema] ∧
    build_new_table (st.dataset_id ++ "." ++ table_id) schema ∈
      (create_table st table_id schema tpf attempt jitter).1.metadata ∧
    (create_table st table_id schema tpf attempt jitter).1.metadata ≠
      st.metadata ∧
    1 ≤ (create_table st table_id schema tpf attempt jitter).2.numAttempts ∧
    ∀ sub ∈ (create_table st table_id schema tpf attempt jitter).2.submitted,
      build_new_table (st.dataset_id ++ "." ++ table_id) schema ∈ sub := by
  refine ⟨rfl, by simp [create_table], ?_, ?_, ?_⟩
  · intro h
    have := congrArg List.length h
    simp [create_table] at this
  · exact create_loop_numAttempts_pos _ attempt jitter 0 4
  · intro sub hsub
    simp only [create_table] at hsub
    rw [create_loop_submitted _ attempt jitter 5 0 sub hsub]
    simp

/-- Claim C10: every creation attempt inside create_table calls create_all
on the facade's whole metadata with no target table, so a single
create_table call submits every accumulated table definition for creation:
after an earlier create_table for tidA and a successful get_table for tidB
on the same facade, every attempt of a later create_table for tidC submits
exactly the accumulated metadata, which contains the definitions of tidA,
tidB and tidC, not only the table named in the call. -/
theorem create_all_submits_entire_metadata
    (st0 : Facade) (tidA tidB tidC : String)
    (schemaA schemaC : List (String × String)) (tpfA tpfC : Option String)
    (attemptA attemptC : Nat → AttemptResult) (jitterA jitterC : Nat → ℚ)
    (introspect : String → Except String (List ColumnDef))
    (colsB : List ColumnDef)
    (hB : introspect (st0.dataset_id ++ "." ++ tidB) = .ok colsB) :
    ∀ sub ∈ (create_table
        (get_table (create_table st0 tidA schemaA tpfA attemptA jitterA).1
          tidB introspect).1
        tidC schemaC tpfC attemptC jitterC).2.submitted,
      sub = (get_table (create_table st0 tidA schemaA tpfA attemptA jitterA).1
          tidB introspect).1.metadata ++
        [build_new_table (st0.dataset_id ++ "." ++ tidC) schemaC] ∧
      build_new_table (st0.dataset_id ++ "." ++ tidA) schemaA ∈ sub ∧
      { name := st0.dataset_id ++ "." ++ tidB, columns := colsB } ∈ sub ∧
      build_new_table (st0.dataset_id ++ "." ++ tidC) schemaC ∈ sub := by
  intro sub hsub
  simp only [create_table, get_table, hB] at hsub ⊢
  rw [create_loop_submitted _ attemptC jitterC 5 0 sub hsub]
  refine ⟨rfl, ?_, ?_, ?_⟩ <;> simp [List.mem_append]

/-- Witness for C10: with dataset d, after create_table t1 and a successful
get_table t2, the attempts of create_table t3 submit the three accumulated
definitions together. -/
theorem create_all_submits_entire_metadata_check :
    build_new_table ((initFacade "p" "d").dataset_id ++ "." ++ "t1")
        [("a", "Integer")] ∈
      (((initFacade "p" "d").metadata ++
          [build_new_table ((initFacade "p" "d").dataset_id ++ "." ++ "t1")
            [("a", "Integer")]]) ++
        [{ name := (initFacade "p" "d").dataset_id ++ "." ++ "t2",
           columns := [{ name := "b", ctype := "String" }] }]) ++
      [build_new_table ((initFacade "p" "d").dataset_id ++ "." ++ "t3")
        [("c", "Integer")]] ∧
    { name := (initFacade "p" "d").dataset_id ++ "." ++ "t2",
      columns := [{ name := "b", ctype := "String" }] } ∈
      (((initFacade "p" "d").metadata ++
          [build_new_table ((initFacade "p" "d").dataset_id ++ "." ++ "t1")
            [("a", "Integer")]]) ++
        [{ name := (initFacade "p" "d").dataset_id ++ "." ++ "t2",
           columns := [{ name := "b", ctype := "String" }] }]) ++
      [build_new_table ((initFacade "p" "d").dataset_id ++ "." ++ "t3")
        [("c", "Integer")]] ∧
    build_new_table ((initFacade "p" "d").dataset_id ++ "." ++ "t3")
        [("c", "Integer")] ∈
      (((initFacade "p" "d").metadata ++
          [build_new_table ((initFacade "p" "d").dataset_id ++ "." ++ "t1")
            [("a", "Integer")]]) ++
        [{ name := (initFacade "p" "d").dataset_id ++ "." ++ "t2",
           columns := [{ name := "b", ctype := "String" }] }]) ++
      [build_new_table ((initFacade "p" "d").dataset_id ++ "." ++ "t3")
        [("c", "Integer")]] := by
  have h := create_all_submits_entire_metadata (initFacade "p" "d")
    "t1" "t2" "t3" [("a", "Integer")] [("c", "Integer")] none none
    (fun _ => AttemptResult.success) (fun _ => AttemptResult.success)
    (fun _ => 0) (fun _ => 0)
    (fun _ => Except.ok [{ name := "b", ctype := "String" }])
    [{ name := "b", ctype := "String" }] rfl
  have h2 := h ((((initFacade "p" "d").metadata ++
      [build_new_table ((initFacade "p" "d").dataset_id ++ "." ++ "t1")
        [("a", "Integer")]]) ++
    [{ name := (initFacade "p" "d").dataset_id ++ "." ++ "t2",
       columns := [{ name := "b", ctype := "String" }] }]) ++
    [build_new_table ((initFacade "p" "d").dataset_id ++ "." ++ "t3")
      [("c", "Integer")]]) (by decide)
  exact ⟨h2.2.1, h2.2.2.1, h2.2.2.2⟩

theorem runSteps_fixed (step : RState → RState) (s : RState)
    (hs : step s = s) (n : Nat) : runSteps step n s = s := by
  induction n with
  | zero => rfl
  | succ n ih => rw [runSteps, hs]; exact ih

theorem loop_states_amended (matchText : String)
    (attempt : Nat → AttemptResult) :
    ∀ f k, k + f = 5 →
    loop_states matchText attempt k f =
      machineTrace (amendedStep matchText attempt) (f + 2) (.attempting k) := by
  intro f
  induction f with
  | zero =>
    intro k hk
    have h5 : k = 5 := by omega
    subst h5
    rfl
  | succ f ih =>
    intro k hk
    have hklt : k < 5 := by omega
    rw [show f + 1 + 2 = f + 2 + 1 from rfl]
    rw [loop_states, machineTrace]
    refine congrArg (List.cons _) ?_
    rw [amendedStep, if_pos hklt]
    cases hA : attempt k with
    | success => rfl
    | failure msg =>
      by_cases hm : strContains msg matchText = true
      · simp only [hm, if_true]
        exact ih (k + 1) (by omega)
      · simp only [Bool.not_eq_true] at hm
        simp only [hm, Bool.false_eq_true, if_false]
        rfl

theorem create_loop_amended_final (md : List TableDef)
    (attempt : Nat → AttemptResult) (jitter : Nat → ℚ) :
    ∀ f k, k + f = 5 →
    stateOfCreateOutcome (create_loop md attempt jitter k f).outcome =
      runSteps (amendedStep rateLimitText attempt) (f + 2) (.attempting k) := by
  intro f
  induction f with
  | zero =>
    intro k hk
    have h5 : k = 5 := by omega
    subst h5
    rfl
  | succ f ih =>
    intro k hk
    have hklt : k < 5 := by omega
    rw [show f + 1 + 2 = f + 2 + 1 from rfl]
    rw [create_loop, runSteps, amendedStep, if_pos hklt]
    cases hA : attempt k with
    | success =>
      rw [runSteps_fixed (amendedStep rateLimitText attempt)
        RState.succeeded rfl (f + 2)]
      rfl
    | failure msg =>
      by_cases hm : strContains msg rateLimitText = true
      · simp only [hm, if_true]
        exact ih (k + 1) (by omega)
      · simp only [Bool.not_eq_true] at hm
        simp only [hm, Bool.false_eq_true, if_false]
        rw [runSteps_fixed (amendedStep rateLimitText attempt)
          RState.fatalFailure rfl (f + 2)]
        rfl

theorem delete_loop_amended_final (attempt : Nat → AttemptResult) :
    ∀ f k, k + f = 5 →
    stateOfDeleteOutcome (delete_loop attempt k f).outcome =
      runSteps (amendedStep quotaText attempt) (f + 2) (.attempting k) := by
  intro f
  induction f with
  | zero =>
    intro k hk
    have h5 : k = 5 := by omega
    subst h5
    rfl
  | succ f ih =>
    intro k hk
    have hklt : k < 5 := by omega
    rw [show f + 1 + 2 = f + 2 + 1 from rfl]
    rw [delete_loop, runSteps, amendedStep, if_pos hklt]
    cases hA : attempt k with
    | success =>
      rw [runSteps_fixed (amendedStep quotaText attempt)
        RState.succeeded rfl (f + 2)]
      rfl
    | failure msg =>
      by_cases hm : strContains msg quotaText = true
      · simp only [hm, if_true]
        exact ih (k + 1) (by omega)
      · simp only [Bool.not_eq_true] at hm
        simp only [hm, Bool.false_eq_true, if_false]
        rw [runSteps_fixed (amendedStep quotaText attempt)
          RState.fatalFailure rfl (f + 2)]
        rfl

/-- Counterexample to claim C7 as stated: with attempts 0..4 failing with a
rate-limited error and attempt 5 succeeding, the spec's machine, whose
Attempting(5) state consults a further attempt, ends Succeeded, while
create_table makes exactly 5 attempts and returns False (ExhaustedRetries):
the loop does not implement the spec machine's Attempting(5) transition. -/
theorem retry_loops_spec_machine_counterexample :
    specFinal rateLimitText
        (fun n => if n < 5 then AttemptResult.failure "Job exceeded rate limits"
          else AttemptResult.success) = RState.succeeded ∧
    stateOfCreateOutcome ((create_table (initFacade "p" "d") "t"
        [("a", "Integer")] none
        (fun n => if n < 5 then AttemptResult.failure "Job exceeded rate limits"
          else AttemptResult.success) fun _ => 0).2.outcome) =
      RState.exhaustedRetries ∧
    RState.succeeded ≠ RState.exhaustedRetries :=
  ⟨by decide, by decide, by decide⟩

/-- Claim C7 (amended): both retry loops implement the state machine whose
transitions are those the claim lists for Attempting(n) with n < 5
(Succeeded on success, FatalFailure on a non-matching error, Attempting(n+1)
after a backoff sleep on a matching transient error), except that from
Attempting(5) the operation transitions to ExhaustedRetries unconditionally,
with no further attempt or error: the states the loops pass through are
exactly the machine's trace, and the final outcome (True, False or raise
for create; normal return, silent return or raise for delete) denotes the
machine's final state. -/
theorem retry_loops_implement_amended_machine
    (st : Facade) (table_id tid2 : String) (schema : List (String × String))
    (tpf : Option String) (attempt : Nat → AttemptResult) (jitter : Nat → ℚ) :
    create_states attempt =
      machineTrace (amendedStep rateLimitText attempt) 7 (.attempting 0) ∧
    delete_states attempt =
      machineTrace (amendedStep quotaText attempt) 7 (.attempting 0) ∧
    stateOfCreateOutcome
        ((create_table st table_id schema tpf attempt jitter).2.outcome) =
      runSteps (amendedStep rateLimitText attempt) 7 (.attempting 0) ∧
    stateOfDeleteOutcome ((delete_table st tid2 attempt).2.outcome) =
      runSteps (amendedStep quotaText attempt) 7 (.attempting 0) := by
  refine ⟨loop_states_amended rateLimitText attempt 5 0 rfl,
    loop_states_amended quotaText attempt 5 0 rfl, ?_, ?_⟩
  · exact create_loop_amended_final _ attempt jitter 5 0 rfl
  · exact delete_loop_amended_final attempt 5 0 rfl
